import Mathlib

/-!
Verification of `paramtools/build_schema.py` (`SchemaBuilder`): a shallow
embedding of the schema-compilation pipeline (`build_schemas`) and of the
revision loader (`load_params`), together with theorems about the claims of
the specification.

JSON documents exchanged with the builder are modelled as association lists
over a small scalar type; the parts of the repository that `build_schema.py`
imports but that are absent here (`paramtools.schema`, `paramtools.utils`,
and the marshmallow `load` machinery they wrap) are modelled from the spec,
as marked on each such definition.
-/

set_option autoImplicit false
set_option synthInstance.maxSize 1024

namespace ParamTools

/-- A JSON scalar as it appears in baseline and revision documents. -/
inductive Scalar where
  | sbool (b : Bool)
  | sint (n : Int)
  | sstr (s : String)
  deriving DecidableEq, Repr

/-- One `{value, <dimension>: label, ...}` record of a baseline or revision
document: a JSON object mapping field names to scalars. -/
abbrev Entry := List (String × Scalar)

/-- The value a parameter name maps to in a baseline or revision document:
either a plain scalar or a sequence of labelled entries. -/
inductive Value where
  | scalar (s : Scalar)
  | entries (es : List Entry)
  deriving DecidableEq, Repr

/-- Semantic field types produced by the type resolver (spec section 4.1). -/
inductive FieldType where
  | num
  | boolean
  | str
  | date
  deriving DecidableEq, Repr

/-- Modelled from the spec: a dimension validator from the registry of
`paramtools.schema.get_param_schema` (the module is absent from the sources);
either an enumerated set of legal labels or an ordered integer range. -/
inductive DimValidator where
  | enumSet (allowed : List Scalar)
  | intRange (lo hi : Int)
  deriving DecidableEq, Repr

/-- Modelled from the spec: whether a dimension validator accepts a label. -/
def DimValidator.check : DimValidator → Scalar → Bool
  | .enumSet allowed, s => allowed.contains s
  | .intRange lo hi, .sint n => decide (lo ≤ n) && decide (n ≤ hi)
  | .intRange _ _, _ => false

/-- A field of a compiled value-entry validator: the `value` field carries a
resolved semantic type, every other field is a dimension validator. -/
inductive ItemField where
  | typed (t : FieldType)
  | dim (d : DimValidator)
  deriving DecidableEq, Repr

/-- Lookup in a Python-style string-keyed dict modelled as an association
list (first matching key wins; keys are unique after `dictInsert`). -/
def dictLookup {α : Type} : List (String × α) → String → Option α
  | [], _ => none
  | (k', v) :: rest, k => if k' = k then some v else dictLookup rest k

/-- Assignment `m[k] = v` on a Python-style dict: overwrite the first
occurrence of `k` in place, otherwise append at the end. -/
def dictInsert {α : Type} : List (String × α) → String → α → List (String × α)
  | [], k, v => [(k, v)]
  | (k', v') :: rest, k, v =>
    if k' = k then (k, v) :: rest else (k', v') :: dictInsert rest k v

/-- Construction-time errors of the missing helpers (spec section 7). -/
inductive SchemaError where
  | typeResolution
  deriving DecidableEq, Repr

/-- Modelled from the spec: the semantic type of a plain scalar, inferred
from its runtime representation (`paramtools.utils.get_type` is absent from
the sources). -/
def scalarType : Scalar → FieldType
  | .sbool _ => .boolean
  | .sint _ => .num
  | .sstr _ => .str

/-- Modelled from the spec: `paramtools.utils.get_type` resolves a raw
baseline value to a semantic type — a plain scalar by its runtime
representation, a structured entry by its `value` sub-field; an empty or
shapeless value is a type-resolution error. -/
def getType : Value → Except SchemaError FieldType
  | .scalar s => .ok (scalarType s)
  | .entries [] => .error .typeResolution
  | .entries (e :: _) =>
    match dictLookup e "value" with
    | some s => .ok (scalarType s)
    | none => .error .typeResolution

/-- Reads a non-empty run of decimal digits, accumulating their value;
`none` on the first non-digit character. -/
def decDigitsAux : List Char → Nat → Option Nat
  | [], acc => some acc
  | c :: cs, acc =>
    if c.isDigit then decDigitsAux cs (acc * 10 + (c.toNat - 48)) else none

/-- The integer denoted by a decimal string, with an optional leading
minus sign; `none` when the string is not a decimal integer. -/
def strToInt (s : String) : Option Int :=
  match s.data with
  | [] => none
  | '-' :: cs =>
    match cs with
    | [] => none
    | _ => (decDigitsAux cs 0).map fun n => -(n : Int)
  | cs => (decDigitsAux cs 0).map fun n => (n : Int)

/-- Modelled from the spec: deserialization of one scalar by a typed field
of the underlying validation library (e.g. the string "10" loaded by a
numeric field becomes the number 10); `none` is a field validation error. -/
def castScalar : FieldType → Scalar → Option Scalar
  | .num, .sint n => some (.sint n)
  | .num, .sstr s => (strToInt s).map Scalar.sint
  | .num, .sbool _ => none
  | .boolean, .sbool b => some (.sbool b)
  | .boolean, _ => none
  | .str, .sstr s => some (.sstr s)
  | .str, _ => none
  | .date, .sstr s => some (.sstr s)
  | .date, _ => none

/-- A data-time violation collected during a load (spec sections 4.5, 7):
each carries the offending parameter and, where applicable, the entry index
and field. -/
inductive VError where
  | unknownParam (param : String)
  | badShape (param : String)
  | missingValue (param : String) (idx : Nat)
  | badValue (param : String) (idx : Nat)
  | badLabel (param : String) (idx : Nat) (dim : String)
  | unknownField (param : String) (idx : Nat) (field : String)
  | contextMissing
  deriving DecidableEq, Repr

/-- The per-parameter `ValidatorItem` schema generated in the loop of
`build_schemas`: its class attributes map `value` to the resolved field type
and each dimension name to its validator. -/
structure ValidatorFragment where
  attrs : List (String × ItemField)
  deriving DecidableEq, Repr

/-- The per-parameter `IndividualParamSchema` generated in the loop of
`build_schemas`: it nests the `ValidatorItem` under its `value` attribute
with the `many` flag of `fields.Nested`. -/
structure ParamFragment where
  item : ValidatorFragment
  many : Bool
  deriving DecidableEq, Repr

/-- Normalized output of a load: parameter name to cleaned entries. -/
abbrev Cleaned := List (String × List Entry)

/-- The `ParamSchema` class built by `build_schemas`: one nested
`IndividualParamSchema` per baseline parameter. -/
structure ParamSchema where
  fragments : List (String × ParamFragment)
  deriving DecidableEq, Repr

/-- The `ValidatorSchema` instance built by `build_schemas`: one nested
`ValidatorItem(many=True)` per baseline parameter, plus the mutable
marshmallow `context` dict of the instance. -/
structure ValidatorSchema where
  fragments : List (String × ValidatorFragment)
  context : List (String × Cleaned)
  deriving DecidableEq, Repr

/-- Modelled from the spec: the violations one `{value, labels}` entry of
parameter `p` at index `i` produces against a compiled value-entry validator
(marshmallow field loading is absent from the sources): the `value` field
must be present and deserialize at the resolved type, every present label
must be accepted by its dimension validator, and a field the validator does
not declare is rejected. -/
def entryViolations (p : String) (i : Nat) (attrs : List (String × ItemField))
    (e : Entry) : List VError :=
  (if (dictLookup e "value").isSome then [] else [VError.missingValue p i]) ++
  e.flatMap fun ks =>
    match dictLookup attrs ks.1 with
    | none => [VError.unknownField p i ks.1]
    | some (.typed t) =>
      if (castScalar t ks.2).isSome then [] else [VError.badValue p i]
    | some (.dim d) =>
      if d.check ks.2 then [] else [VError.badLabel p i ks.1]

/-- Modelled from the spec: the violations the value of parameter `k`
produces against the compiled schemas — an undeclared parameter name is an
unknown-parameter error, a plain scalar where the `many=True` nested field
expects a sequence is a shape error, and otherwise every entry is checked. -/
def paramViolations (frags : List (String × ValidatorFragment)) (k : String)
    (v : Value) : List VError :=
  match dictLookup frags k with
  | none => [VError.unknownParam k]
  | some vf =>
    match v with
    | .scalar _ => [VError.badShape k]
    | .entries es => es.enum.flatMap fun ie => entryViolations k ie.1 vf.attrs ie.2

/-- Modelled from the spec: all violations of a whole document, collected
across every parameter and entry rather than stopping at the first. -/
def specViolations (frags : List (String × ValidatorFragment))
    (input : List (String × Value)) : List VError :=
  input.flatMap fun kv => paramViolations frags kv.1 kv.2

/-- Modelled from the spec: normalization of one entry — the `value` field is
replaced by its typed deserialization, labels keep their scalar form. -/
def cleanEntry (attrs : List (String × ItemField)) (e : Entry) : Entry :=
  e.map fun ks =>
    match dictLookup attrs ks.1 with
    | some (.typed t) => (ks.1, (castScalar t ks.2).getD ks.2)
    | _ => ks

/-- Modelled from the spec: normalization of a whole valid document. -/
def cleanSpec (frags : List (String × ValidatorFragment))
    (input : List (String × Value)) : Cleaned :=
  input.map fun kv =>
    (kv.1,
      match dictLookup frags kv.1 with
      | none => []
      | some vf =>
        match kv.2 with
        | .scalar _ => []
        | .entries es => es.map (cleanEntry vf.attrs))

/-- The validator fragments seen through the `value` nesting of the
per-parameter baseline schemas. -/
def ParamSchema.itemFragments (ps : ParamSchema) :
    List (String × ValidatorFragment) :=
  ps.fragments.map fun kp => (kp.1, kp.2.item)

/-- Modelled from the spec: `param_schema.load` — validate the baseline
document against the per-parameter baseline schemas, raising the batch of
all collected violations or returning the cleaned baseline. -/
def ParamSchema.load (ps : ParamSchema) (input : List (String × Value)) :
    Except (List VError) Cleaned :=
  let errs := specViolations ps.itemFragments input
  if errs = [] then .ok (cleanSpec ps.itemFragments input) else .error errs

/-- Modelled from the spec: `validator_schema.load` — the cleaned baseline
must have been bound under the `base_spec` key of the schema instance's
context (range validation reads it there; a missing binding cannot be
checked), then the revision is validated against the per-parameter validator
fragments, raising the batch of all collected violations or returning the
cleaned revision. -/
def ValidatorSchema.load (vs : ValidatorSchema) (rev : List (String × Value)) :
    Except (List VError) Cleaned :=
  match dictLookup vs.context "base_spec" with
  | none => .error [VError.contextMissing]
  | some _ =>
    let errs := specViolations vs.fragments rev
    if errs = [] then .ok (cleanSpec vs.fragments rev) else .error errs

/-- The state of a `SchemaBuilder` instance: the dimension validators and
baseline specification read at construction, and the `param_schema` and
`validator_schema` attributes, absent until `build_schemas` assigns them. -/
structure SchemaBuilder where
  dim_validators : List (String × DimValidator)
  base_spec : List (String × Value)
  param_schema : Option ParamSchema
  validator_schema : Option ValidatorSchema
  deriving DecidableEq, Repr

/-- The class attributes of one `ValidatorItem`: the Python dict display
`{"value": fieldtype, **self.dim_validators}` — insert `value` first, then
each dimension validator in order, later keys overriding earlier ones. -/
def mergeAttrs (t : FieldType) (dvs : List (String × DimValidator)) :
    List (String × ItemField) :=
  dvs.foldl (fun m kd => dictInsert m kd.1 (ItemField.dim kd.2))
    [("value", ItemField.typed t)]

/-- The body of the `for k, v in self.base_spec.items()` loop of
`build_schemas`: resolve the field type of the raw baseline value, build the
`ValidatorItem` fragment, and nest it under `value` with `many=True` to form
the `IndividualParamSchema` fragment. -/
def compileParam (dvs : List (String × DimValidator)) (v : Value) :
    Except SchemaError (ValidatorFragment × ParamFragment) :=
  match getType v with
  | .error e => .error e
  | .ok t =>
    let vf : ValidatorFragment := ⟨mergeAttrs t dvs⟩
    .ok (vf, ⟨vf, true⟩)

/-- The whole loop of `build_schemas`, threading the `validator_dict` and
`param_dict` accumulators through the items of the baseline specification;
a type-resolution error aborts the loop. -/
def buildDictsAux (dvs : List (String × DimValidator)) :
    List (String × ValidatorFragment) → List (String × ParamFragment) →
    List (String × Value) →
    Except SchemaError
      (List (String × ValidatorFragment) × List (String × ParamFragment))
  | vd, pd, [] => .ok (vd, pd)
  | vd, pd, (k, v) :: rest =>
    match compileParam dvs v with
    | .error e => .error e
    | .ok (vf, pf) =>
      buildDictsAux dvs (dictInsert vd k vf) (dictInsert pd k pf) rest

/-- `validator_dict` and `param_dict` as populated by the loop of
`build_schemas`, starting from empty dicts. -/
def buildDicts (dvs : List (String × DimValidator))
    (spec : List (String × Value)) :
    Except SchemaError
      (List (String × ValidatorFragment) × List (String × ParamFragment)) :=
  buildDictsAux dvs [] [] spec

/-- How a `build_schemas` call ended when it did not succeed: a
construction-time error from the compile loop, or the batch of violations
raised while the baseline specification was loaded. -/
inductive BuildError where
  | typeError (e : SchemaError)
  | validation (errs : List VError)
  deriving DecidableEq, Repr

/-- Whether a build error arose in the compile loop (before any schema
attribute was assigned) rather than during the baseline load. -/
def BuildError.isTypeErr : BuildError → Bool
  | .typeError _ => true
  | .validation _ => false

/-- `SchemaBuilder.build_schemas`, as a transition on the builder state:
run the compile loop, assign `self.param_schema`, load the baseline
specification through it, then assign `self.validator_schema` and bind the
cleaned baseline under the `base_spec` key of its context. The returned
builder is the state the Python object is left in, paired with the error
that propagated, if any: an exception raised by the baseline load escapes
after `param_schema` was assigned but before `validator_schema` was. -/
def build_schemas (b : SchemaBuilder) : SchemaBuilder × Option BuildError :=
  match buildDicts b.dim_validators b.base_spec with
  | .error e => (b, some (BuildError.typeError e))
  | .ok (vdict, pdict) =>
    match ParamSchema.load ⟨pdict⟩ b.base_spec with
    | .error es =>
      ({ b with param_schema := some ⟨pdict⟩ },
       some (BuildError.validation es))
    | .ok cleaned =>
      ({ b with param_schema := some ⟨pdict⟩,
                validator_schema :=
                  some ⟨vdict, dictInsert [] "base_spec" cleaned⟩ },
       none)

/-- How a `load_params` call can fail: the `ValueError` of the final
dispatch branch, a JSON decoding error from `json.loads`/`read_json`, the
`AttributeError` of touching `self.validator_schema` before `build_schemas`
ran, or the batch of violations raised by `validator_schema.load`. -/
inductive LoadError where
  | valueError
  | jsonDecode
  | attributeError
  | validation (errs : List VError)
  deriving DecidableEq, Repr

/-- The final line of `load_params`: `self.validator_schema.load(params)` —
an `AttributeError` if `build_schemas` never assigned the attribute,
otherwise the load of the already-deserialized revision dict. -/
def runValidator (b : SchemaBuilder) (params : List (String × Value)) :
    Except LoadError Cleaned :=
  match b.validator_schema with
  | none => .error LoadError.attributeError
  | some vs =>
    match vs.load params with
    | .ok c => .ok c
    | .error es => .error (LoadError.validation es)

/-- The runtime shape of the `params_or_path` argument of `load_params`:
a string, a dict, or anything else. -/
inductive ParamsOrPath where
  | str (s : String)
  | dict (d : List (String × Value))
  | other
  deriving DecidableEq, Repr

/-- `SchemaBuilder.load_params`, with the external collaborators passed
explicitly: `fs` is the file system consulted by `os.path.exists` and
`utils.read_json` (path to raw text), `parse` is JSON decoding. A string
naming an existing file is read and its content decoded; any other string
is itself decoded; a dict is used directly; anything else raises
`ValueError` before the validator schema is ever touched. -/
def SchemaBuilder.load_params (b : SchemaBuilder)
    (fs : List (String × String))
    (parse : String → Option (List (String × Value)))
    (p : ParamsOrPath) : Except LoadError Cleaned :=
  match p with
  | .str s =>
    match dictLookup fs s with
    | some content =>
      match parse content with
      | none => .error LoadError.jsonDecode
      | some params => runValidator b params
    | none =>
      match parse s with
      | none => .error LoadError.jsonDecode
      | some params => runValidator b params
  | .dict params => runValidator b params
  | .other => .error LoadError.valueError

/-- Equality of load outcomes is decidable, so concrete runs can be checked
by evaluation. -/
instance {ε α : Type} [DecidableEq ε] [DecidableEq α] :
    DecidableEq (Except ε α) := fun x y =>
  match x, y with
  | .ok a, .ok b =>
    if h : a = b then isTrue (by rw [h])
    else isFalse fun hh => h (Except.ok.inj hh)
  | .error a, .error b =>
    if h : a = b then isTrue (by rw [h])
    else isFalse fun hh => h (Except.error.inj hh)
  | .ok _, .error _ => isFalse Except.noConfusion
  | .error _, .ok _ => isFalse Except.noConfusion

/-- Whether an `Except` result is a success. -/
def isOkE {ε α : Type} : Except ε α → Bool
  | .ok _ => true
  | .error _ => false

/-- The batch of violations carried by a failed load, empty on success. -/
def errList {ε α : Type} : Except (List ε) α → List ε
  | .error es => es
  | .ok _ => []

/-- Whether a `load_params` outcome is a validation verdict at all — a
successful deserialization or a batch of data-time violations, as opposed to
the dispatch and attribute errors that precede any validation. -/
def isValidationE : Except LoadError Cleaned → Bool
  | .ok _ => true
  | .error (.validation _) => true
  | .error _ => false

/-- The `base_spec` binding cached in the context of the builder's
validator schema, when both exist. -/
def contextBaseline (b : SchemaBuilder) : Option Cleaned :=
  b.validator_schema.bind fun vs => dictLookup vs.context "base_spec"

/-- The result of loading the baseline specification of `b0` through the
param schema held by `b`, when that schema exists and the load succeeds. -/
def baselineReload (b b0 : SchemaBuilder) : Option Cleaned :=
  b.param_schema.bind fun ps => (ps.load b0.base_spec).toOption

/-! ### Dictionary lemmas -/

theorem dictInsert_of_not_mem {α : Type} (m : List (String × α)) (k : String)
    (v : α) (h : k ∉ m.map Prod.fst) : dictInsert m k v = m ++ [(k, v)] := by
  induction m with
  | nil => rfl
  | cons kv rest ih =>
    obtain ⟨k', v'⟩ := kv
    simp only [List.map_cons, List.mem_cons, not_or] at h
    have hne : ¬k' = k := fun hkk => h.1 hkk.symm
    simp [dictInsert, hne, ih h.2]

theorem foldl_dictInsert {α β : Type} (f : β → α) :
    ∀ (l : List (String × β)) (m : List (String × α)),
    (l.map Prod.fst).Nodup →
    (∀ k ∈ l.map Prod.fst, k ∉ m.map Prod.fst) →
    l.foldl (fun acc kd => dictInsert acc kd.1 (f kd.2)) m
      = m ++ l.map fun kd => (kd.1, f kd.2) := by
  intro l
  induction l with
  | nil => intro m _ _; simp
  | cons kd rest ih =>
    intro m hnd hfresh
    obtain ⟨k, d⟩ := kd
    simp only [List.map_cons, List.nodup_cons] at hnd
    have hkm : k ∉ m.map Prod.fst := hfresh k (by simp)
    have hstep : dictInsert m k (f d) = m ++ [(k, f d)] :=
      dictInsert_of_not_mem m k (f d) hkm
    simp only [List.foldl_cons, hstep]
    rw [ih (m ++ [(k, f d)]) hnd.2]
    · simp
    · intro k' hk'
      simp only [List.map_append, List.mem_append, not_or]
      refine ⟨hfresh k' (by simp [hk']), ?_⟩
      simp only [List.map_cons, List.map_nil, List.mem_singleton]
      intro hkk
      exact hnd.1 (hkk ▸ hk')

theorem buildDictsAux_keys (dvs : List (String × DimValidator)) :
    ∀ (spec : List (String × Value)) (vd : List (String × ValidatorFragment))
      (pd : List (String × ParamFragment))
      (vd' : List (String × ValidatorFragment))
      (pd' : List (String × ParamFragment)),
    (spec.map Prod.fst).Nodup →
    (∀ k ∈ spec.map Prod.fst, k ∉ vd.map Prod.fst) →
    (∀ k ∈ spec.map Prod.fst, k ∉ pd.map Prod.fst) →
    buildDictsAux dvs vd pd spec = .ok (vd', pd') →
    vd'.map Prod.fst = vd.map Prod.fst ++ spec.map Prod.fst ∧
    pd'.map Prod.fst = pd.map Prod.fst ++ spec.map Prod.fst := by
  intro spec
  induction spec with
  | nil =>
    intro vd pd vd' pd' _ _ _ h
    simp only [buildDictsAux] at h
    injection h with h
    injection h with h1 h2
    simp [← h1, ← h2]
  | cons kv rest ih =>
    intro vd pd vd' pd' hnd hfv hfp h
    obtain ⟨k, v⟩ := kv
    simp only [List.map_cons, List.nodup_cons] at hnd
    simp only [buildDictsAux] at h
    split at h
    next e hc => simp at h
    next vf pf hc =>
      have hkv : k ∉ vd.map Prod.fst := hfv k (by simp)
      have hkp : k ∉ pd.map Prod.fst := hfp k (by simp)
      have h1 := ih (dictInsert vd k vf) (dictInsert pd k pf) vd' pd' hnd.2
        (by
          intro k' hk'
          rw [dictInsert_of_not_mem vd k vf hkv]
          simp only [List.map_append, List.mem_append, not_or]
          refine ⟨hfv k' (by simp [hk']), ?_⟩
          simp only [List.map_cons, List.map_nil, List.mem_singleton]
          intro hkk
          exact hnd.1 (hkk ▸ hk'))
        (by
          intro k' hk'
          rw [dictInsert_of_not_mem pd k pf hkp]
          simp only [List.map_append, List.mem_append, not_or]
          refine ⟨hfp k' (by simp [hk']), ?_⟩
          simp only [List.map_cons, List.map_nil, List.mem_singleton]
          intro hkk
          exact hnd.1 (hkk ▸ hk'))
        h
      rw [dictInsert_of_not_mem vd k vf hkv, dictInsert_of_not_mem pd k pf hkp]
        at h1
      simpa using h1

/-- Inversion of a successful `build_schemas` run: the compile loop and the
baseline load succeeded, and the builder ends with both schemas assigned and
the cleaned baseline bound in the validator schema's context. -/
theorem build_schemas_ok_inv (b b' : SchemaBuilder)
    (hb : build_schemas b = (b', none)) :
    ∃ (vdict : List (String × ValidatorFragment))
      (pdict : List (String × ParamFragment)) (cleaned : Cleaned),
      buildDicts b.dim_validators b.base_spec = .ok (vdict, pdict) ∧
      ParamSchema.load ⟨pdict⟩ b.base_spec = .ok cleaned ∧
      b' = { b with param_schema := some ⟨pdict⟩,
                    validator_schema :=
                      some ⟨vdict, dictInsert [] "base_spec" cleaned⟩ } := by
  unfold build_schemas at hb
  split at hb
  next e hbd => simp at hb
  next vdict pdict hbd =>
    split at hb
    next es hld => simp at hb
    next cleaned hld =>
      refine ⟨vdict, pdict, cleaned, hbd, hld, ?_⟩
      exact (congrArg Prod.fst hb).symm

/-! ### Concrete instances used by witnesses and counterexamples -/

/-- A schema definition with one dimension, `year`, restricted to an
enumerated set of labels. -/
def exDims : List (String × DimValidator) :=
  [("year", DimValidator.enumSet [Scalar.sint 2020, Scalar.sint 2021])]

/-- A valid two-parameter baseline specification. -/
def exSpec : List (String × Value) :=
  [("A", Value.entries [[("value", Scalar.sint 1), ("year", Scalar.sint 2020)]]),
   ("B", Value.entries [[("value", Scalar.sint 5)]])]

/-- A freshly constructed builder over `exDims` and `exSpec`. -/
def exBuilder : SchemaBuilder := ⟨exDims, exSpec, none, none⟩

/-- The builder after a successful `build_schemas` run. -/
def exBuilt : SchemaBuilder := (build_schemas exBuilder).1

/-- The compiled baseline schema of `exBuilt`. -/
def exPS : ParamSchema := exBuilt.param_schema.getD ⟨[]⟩

/-- The compiled validator schema of `exBuilt`, its context holding the
cleaned baseline. -/
def exVS : ValidatorSchema := exBuilt.validator_schema.getD ⟨[], []⟩

/-- The cleaned baseline produced by loading `exSpec` through `exPS`. -/
def exCleaned : Cleaned :=
  (ParamSchema.load exPS exBuilder.base_spec).toOption.getD []

/-- A fresh builder whose baseline carries an illegal `year` label, so that
its baseline load fails during `build_schemas`. -/
def cbFail : SchemaBuilder :=
  ⟨exDims,
   [("A", Value.entries [[("value", Scalar.sint 1), ("year", Scalar.sint 1999)]])],
   none, none⟩

/-- A fresh builder whose baseline declares parameter `A` as a plain
scalar. -/
def cbScalar : SchemaBuilder :=
  ⟨[], [("A", Value.scalar (Scalar.sint 2))], none, none⟩

/-- The validator schema of `exBuilt` with its cached context emptied; its
per-parameter fragments are untouched. -/
def exVSempty : ValidatorSchema := ⟨exVS.fragments, []⟩

/-- A valid one-parameter revision of `exSpec`. -/
def exRev : List (String × Value) :=
  [("A", Value.entries [[("value", Scalar.sint 3), ("year", Scalar.sint 2021)]])]

/-- A revision with three independent violations across two parameters: a
non-numeric value and an illegal label under `A`, and a shape error under
`B`. -/
def exBadRev : List (String × Value) :=
  [("A", Value.entries
      [[("value", Scalar.sstr "abc"), ("year", Scalar.sint 2020)],
       [("value", Scalar.sint 1), ("year", Scalar.sint 1999)]]),
   ("B", Value.scalar (Scalar.sint 5))]

/-- A revision naming a parameter absent from the baseline. -/
def exRevUnknown : List (String × Value) :=
  [("C", Value.entries [[("value", Scalar.sint 3)]])]

/-- The three violations of `exBadRev`, in collection order. -/
def exBadErrs : List VError :=
  [VError.badValue "A" 0, VError.badLabel "A" 1 "year", VError.badShape "B"]

/-- A one-file file system mapping the path `params.json` to the raw text
of an empty JSON object. -/
def wFs : List (String × String) := [("params.json", "\x7b\x7d")]

/-- A JSON decoder recognizing only the empty object. -/
def wParse : String → Option (List (String × Value)) :=
  fun s => if s = "\x7b\x7d" then some [] else none

/-! ### Claim C1 -/

/-- C1 counterexample: the claim that after every failing `build_schemas`
call neither `param_schema` nor `validator_schema` is observable on the
builder is false. On a fresh builder whose baseline specification fails
validation while being loaded, the run fails and yet `param_schema` is
observable afterwards, because `build_schemas` assigns it before loading
the baseline specification through it. -/
theorem build_failure_param_schema_observable :
    ((build_schemas cbFail).2).isSome = true ∧
    ((build_schemas cbFail).1.param_schema).isSome = true :=
  ⟨rfl, rfl⟩

/-- C1 amended: a failing `build_schemas` call never assigns
`validator_schema`; when the failure arises in the compile loop the builder
is left entirely unchanged, but when the baseline specification fails
validation while being loaded the builder is left with `param_schema`
assigned (cached), since the source assigns that attribute before the
load. -/
theorem build_failure_state (b : SchemaBuilder) (e : BuildError)
    (hb : (build_schemas b).2 = some e) :
    (build_schemas b).1.validator_schema = b.validator_schema ∧
    (e.isTypeErr = true → (build_schemas b).1 = b) ∧
    (e.isTypeErr = false →
      ((build_schemas b).1.param_schema).isSome = true) := by
  obtain ⟨b', e', hq⟩ : ∃ b' e', build_schemas b = (b', e') := ⟨_, _, rfl⟩
  rw [hq] at hb ⊢
  simp only at hb ⊢
  subst hb
  unfold build_schemas at hq
  split at hq
  next e0 hbd =>
    injection hq with h1 h2
    injection h2 with h2
    subst h1
    refine ⟨rfl, fun _ => rfl, fun hf => ?_⟩
    rw [← h2] at hf
    simp [BuildError.isTypeErr] at hf
  next vdict pdict hbd =>
    split at hq
    next es hld =>
      injection hq with h1 h2
      injection h2 with h2
      subst h1
      refine ⟨rfl, fun ht => ?_, fun _ => rfl⟩
      rw [← h2] at ht
      simp [BuildError.isTypeErr] at ht
    next cleaned hld =>
      injection hq with h1 h2
      exact Option.noConfusion h2

/-- C1 witness: the amended statement at the concrete failing builder
`cbFail`, whose failure is a baseline-validation batch. -/
theorem build_failure_state_w :
    (build_schemas cbFail).1.validator_schema = cbFail.validator_schema ∧
    ((BuildError.validation [VError.badLabel "A" 0 "year"]).isTypeErr = true →
      (build_schemas cbFail).1 = cbFail) ∧
    ((BuildError.validation [VError.badLabel "A" 0 "year"]).isTypeErr = false →
      ((build_schemas cbFail).1.param_schema).isSome = true) :=
  build_failure_state cbFail
    (BuildError.validation [VError.badLabel "A" 0 "year"]) rfl

/-! ### Claim C2 -/

/-- C2 counterexample: the claim that a parameter the baseline declares as
a scalar is compiled to a schema accepting a single value is false. For the
scalar baseline value `2`, the loop body still nests the value-entry
validator with `many=True`, and the schema compiled from the all-scalar
baseline `cbScalar` consequently rejects that very baseline with a shape
error instead of accepting the single value. -/
theorem scalar_baseline_wrapped_many :
    compileParam [] (Value.scalar (Scalar.sint 2)) =
      .ok (⟨[("value", ItemField.typed FieldType.num)]⟩,
           ⟨⟨[("value", ItemField.typed FieldType.num)]⟩, true⟩) ∧
    (build_schemas cbScalar).2 =
      some (BuildError.validation [VError.badShape "A"]) :=
  ⟨rfl, rfl⟩

/-- C2 amended: the value-entry validator is wrapped as a sequence
(`many=True`) for every parameter, unconditionally — the baseline's scalar
or sequence declaration plays no role in the wrapping. -/
theorem compileParam_always_many (dvs : List (String × DimValidator))
    (v : Value) (vf : ValidatorFragment) (pf : ParamFragment)
    (h : compileParam dvs v = .ok (vf, pf)) : pf.many = true := by
  unfold compileParam at h
  split at h
  next e hg => cases h
  next t hg =>
    have h2 := Except.ok.inj h
    have h3 : ({ item := { attrs := mergeAttrs t dvs }, many := true } :
        ParamFragment) = pf := congrArg Prod.snd h2
    rw [← h3]

/-- C2 witness: the amended statement at the scalar baseline value `2`. -/
theorem compileParam_always_many_w :
    (⟨⟨[("value", ItemField.typed FieldType.num)]⟩, true⟩ :
      ParamFragment).many = true :=
  compileParam_always_many [] (Value.scalar (Scalar.sint 2))
    ⟨[("value", ItemField.typed FieldType.num)]⟩
    ⟨⟨[("value", ItemField.typed FieldType.num)]⟩, true⟩ rfl

/-! ### Claim C3 -/

/-- C3 counterexample: the claim that the cleaned baseline is supplied
explicitly as an argument to each revision validation rather than being
implicitly cached on a shared schema object is false. Two validator schema
objects with identical per-parameter fragments, differing only in the
cached `context`, give different outcomes on the same revision passed as
the same explicit argument: the built schema accepts `exRev`, while the
same schema with its context emptied cannot validate it at all. -/
theorem revision_load_reads_cached_context :
    exVSempty.fragments = exVS.fragments ∧
    exVS.load exRev =
      .ok [("A", [[("value", Scalar.sint 3), ("year", Scalar.sint 2021)]])] ∧
    exVSempty.load exRev = .error [VError.contextMissing] :=
  ⟨rfl, rfl, rfl⟩

/-- C3 amended: revision validation reads the cleaned baseline from the
`base_spec` binding implicitly cached in the validator schema's `context`
attribute — `load_params` takes only the revision — and a validator schema
whose context lacks that binding cannot validate any revision. -/
theorem missing_context_fails (vs : ValidatorSchema)
    (rev : List (String × Value))
    (h : dictLookup vs.context "base_spec" = none) :
    vs.load rev = .error [VError.contextMissing] := by
  unfold ValidatorSchema.load
  rw [h]

/-- C3 witness: the amended statement at the context-free schema
`exVSempty` and the revision `exRev`. -/
theorem missing_context_fails_w :
    exVSempty.load exRev = .error [VError.contextMissing] :=
  missing_context_fails exVSempty exRev rfl

/-! ### Claim C4 -/

/-- C4: for every revision document containing a parameter name that is
absent from the compiled per-parameter fragments (the baseline's
parameters), the revision load fails — it never succeeds — and the batch
of violations it raises contains an unknown-parameter error naming that
parameter. -/
theorem unknown_param_rejected (vs : ValidatorSchema)
    (rev : List (String × Value)) (k : String) (base : Cleaned)
    (hctx : dictLookup vs.context "base_spec" = some base)
    (hk : k ∈ rev.map Prod.fst)
    (hfrag : dictLookup vs.fragments k = none) :
    VError.unknownParam k ∈ errList (vs.load rev) ∧
    isOkE (vs.load rev) = false := by
  obtain ⟨kv, hkv, hfst⟩ := List.mem_map.mp hk
  have hpv : VError.unknownParam k ∈ paramViolations vs.fragments kv.1 kv.2 := by
    unfold paramViolations
    rw [hfst, hfrag]
    simp
  have hsv : VError.unknownParam k ∈ specViolations vs.fragments rev :=
    List.mem_flatMap.mpr ⟨kv, hkv, hpv⟩
  have hne : specViolations vs.fragments rev ≠ [] := List.ne_nil_of_mem hsv
  unfold ValidatorSchema.load
  rw [hctx]
  simp only [if_neg hne]
  exact ⟨hsv, rfl⟩

/-- C4 witness: the revision `exRevUnknown` names the parameter `C`,
absent from the baseline `exSpec`, and is rejected with an
unknown-parameter error naming `C`. -/
theorem unknown_param_rejected_w :
    VError.unknownParam "C" ∈ errList (exVS.load exRevUnknown) ∧
    isOkE (exVS.load exRevUnknown) = false :=
  unknown_param_rejected exVS exRevUnknown "C" exCleaned rfl (by decide) rfl

/-! ### Claim C5 -/

/-- C5: revision validation does not fail fast — when a load fails, the
single aggregate batch it raises is exactly the collection of all
violations of the document, and it contains every violation of every
parameter of the revision. -/
theorem violations_batched (vs : ValidatorSchema)
    (rev : List (String × Value)) (es : List VError) (base : Cleaned)
    (hctx : dictLookup vs.context "base_spec" = some base)
    (hload : vs.load rev = .error es) :
    es = specViolations vs.fragments rev ∧
    (rev.all fun kv => (paramViolations vs.fragments kv.1 kv.2).all
       fun err => decide (err ∈ es)) = true := by
  unfold ValidatorSchema.load at hload
  rw [hctx] at hload
  simp only at hload
  by_cases hnil : specViolations vs.fragments rev = []
  · rw [if_pos hnil] at hload
    exact Except.noConfusion hload
  · rw [if_neg hnil] at hload
    have hes := Except.error.inj hload
    refine ⟨hes.symm, ?_⟩
    rw [List.all_eq_true]
    intro kv hkv
    rw [List.all_eq_true]
    intro err herr
    exact decide_eq_true (hes ▸ List.mem_flatMap.mpr ⟨kv, hkv, herr⟩)

/-- C5 witness: the revision `exBadRev` carries three independent
violations across its two parameters — a bad value and a bad label under
`A`, a shape error under `B` — and one load failure reports all three. -/
theorem violations_batched_w :
    exBadErrs = specViolations exVS.fragments exBadRev ∧
    (exBadRev.all fun kv => (paramViolations exVS.fragments kv.1 kv.2).all
       fun err => decide (err ∈ exBadErrs)) = true :=
  violations_batched exVS exBadRev exBadErrs exCleaned rfl (by decide)

/-! ### Claim C6 -/

/-- C6: a successful `build_schemas` run produces exactly one per-parameter
fragment in the baseline schema and exactly one in the validator schema for
every parameter of the baseline specification, keyed by the parameter's
name, in order, with no parameter skipped and no fragment for a name not in
the baseline. -/
theorem build_schemas_keys (b b' : SchemaBuilder) (ps : ParamSchema)
    (vs : ValidatorSchema)
    (hnd : (b.base_spec.map Prod.fst).Nodup)
    (hb : build_schemas b = (b', none))
    (hps : b'.param_schema = some ps)
    (hvs : b'.validator_schema = some vs) :
    ps.fragments.map Prod.fst = b.base_spec.map Prod.fst ∧
    vs.fragments.map Prod.fst = b.base_spec.map Prod.fst := by
  obtain ⟨vdict, pdict, cleaned, hbd, hld, hb'⟩ := build_schemas_ok_inv b b' hb
  subst hb'
  have hps' : (⟨pdict⟩ : ParamSchema) = ps := Option.some.inj hps
  have hvs' :
      (⟨vdict, dictInsert [] "base_spec" cleaned⟩ : ValidatorSchema) = vs :=
    Option.some.inj hvs
  obtain ⟨hkv, hkp⟩ := buildDictsAux_keys b.dim_validators b.base_spec [] []
    vdict pdict hnd (by simp) (by simp) hbd
  constructor
  · rw [← hps']; simpa using hkp
  · rw [← hvs']; simpa using hkv

/-- C6 witness: the concrete builder `exBuilder` with baseline parameters
`A` and `B` compiles to schemas keyed exactly by `A` and `B`. -/
theorem build_schemas_keys_w :
    exPS.fragments.map Prod.fst = exBuilder.base_spec.map Prod.fst ∧
    exVS.fragments.map Prod.fst = exBuilder.base_spec.map Prod.fst :=
  build_schemas_keys exBuilder exBuilt exPS exVS (by decide) rfl rfl rfl

/-! ### Claim C7 -/

/-- C7: every compiled value-entry validator consists of exactly a `value`
field carrying the semantic type resolved from the parameter's baseline
value, followed by one dimension validator for every globally declared
dimension — the same full set for every parameter, since the dimension dict
does not depend on the parameter. The hypothesis that no dimension is
named `value` reflects the data model, in which the `value` key of an entry
is reserved and cannot be a dimension name. -/
theorem validator_item_attrs (dvs : List (String × DimValidator)) (v : Value)
    (t : FieldType)
    (hnd : (dvs.map Prod.fst).Nodup)
    (hval : "value" ∉ dvs.map Prod.fst)
    (ht : getType v = .ok t) :
    compileParam dvs v =
      .ok (⟨("value", ItemField.typed t) ::
              dvs.map fun kd => (kd.1, ItemField.dim kd.2)⟩,
           ⟨⟨("value", ItemField.typed t) ::
              dvs.map fun kd => (kd.1, ItemField.dim kd.2)⟩, true⟩) := by
  have hm : mergeAttrs t dvs =
      ("value", ItemField.typed t) ::
        dvs.map fun kd => (kd.1, ItemField.dim kd.2) := by
    unfold mergeAttrs
    rw [foldl_dictInsert ItemField.dim dvs [("value", ItemField.typed t)] hnd
      (by
        intro k hk
        simp only [List.map_cons, List.map_nil, List.mem_singleton]
        intro hkk
        exact hval (hkk ▸ hk))]
    simp
  simp [compileParam, ht, hm]

/-- C7 witness: at the one-dimension schema definition `exDims` and the
baseline value of parameter `A`, the compiled value-entry validator is the
`value` field typed numeric followed by the `year` dimension validator. -/
theorem validator_item_attrs_w :
    compileParam exDims
        (Value.entries [[("value", Scalar.sint 1), ("year", Scalar.sint 2020)]]) =
      .ok (⟨("value", ItemField.typed FieldType.num) ::
              exDims.map fun kd => (kd.1, ItemField.dim kd.2)⟩,
           ⟨⟨("value", ItemField.typed FieldType.num) ::
              exDims.map fun kd => (kd.1, ItemField.dim kd.2)⟩, true⟩) :=
  validator_item_attrs exDims
    (Value.entries [[("value", Scalar.sint 1), ("year", Scalar.sint 2020)]])
    FieldType.num (by decide) (by decide) rfl

/-! ### Claim C8 -/

/-- C8: a revision is never validated before the cleaned baseline is bound
as context. A builder on which `build_schemas` has not assigned
`validator_schema` can produce no validation verdict at all from
`load_params`; and every successful `build_schemas` run binds, under the
`base_spec` key of the validator schema's context, exactly the cleaned
result of loading the baseline specification through the compiled baseline
schema. -/
theorem context_before_revision :
    (∀ (b : SchemaBuilder) (fs : List (String × String))
       (parse : String → Option (List (String × Value))) (p : ParamsOrPath),
      b.validator_schema = none →
      isOkE (b.load_params fs parse p) = false ∧
      isValidationE (b.load_params fs parse p) = false) ∧
    (∀ b b' : SchemaBuilder, build_schemas b = (b', none) →
      (contextBaseline b').isSome = true ∧
      contextBaseline b' = baselineReload b' b) := by
  constructor
  · intro b fs parse p hnone
    cases p with
    | str s =>
      cases hfs : dictLookup fs s with
      | some content =>
        cases hp : parse content with
        | none =>
          simp [SchemaBuilder.load_params, hfs, hp, isOkE, isValidationE]
        | some params =>
          simp [SchemaBuilder.load_params, hfs, hp, runValidator, hnone,
            isOkE, isValidationE]
      | none =>
        cases hp : parse s with
        | none =>
          simp [SchemaBuilder.load_params, hfs, hp, isOkE, isValidationE]
        | some params =>
          simp [SchemaBuilder.load_params, hfs, hp, runValidator, hnone,
            isOkE, isValidationE]
    | dict d =>
      simp [SchemaBuilder.load_params, runValidator, hnone, isOkE,
        isValidationE]
    | other => simp [SchemaBuilder.load_params, isOkE, isValidationE]
  · intro b b' hb
    obtain ⟨vdict, pdict, cleaned, hbd, hld, hb'⟩ := build_schemas_ok_inv b b' hb
    subst hb'
    constructor
    · simp [contextBaseline, dictInsert, dictLookup]
    · simp [contextBaseline, baselineReload, dictInsert, dictLookup, hld,
        Except.toOption]

/-- C8 witness: the fresh builder `exBuilder` yields no validation verdict
from `load_params`, and after its successful build the cached context
equals a fresh baseline load through the compiled baseline schema. -/
theorem context_before_revision_w :
    (isOkE (SchemaBuilder.load_params exBuilder [] (fun _ => none)
        ParamsOrPath.other) = false ∧
     isValidationE (SchemaBuilder.load_params exBuilder [] (fun _ => none)
        ParamsOrPath.other) = false) ∧
    ((contextBaseline exBuilt).isSome = true ∧
     contextBaseline exBuilt = baselineReload exBuilt exBuilder) :=
  ⟨context_before_revision.1 exBuilder [] (fun _ => none)
      ParamsOrPath.other rfl,
   context_before_revision.2 exBuilder exBuilt rfl⟩

/-! ### Claim C9 -/

/-- C9: baseline validation is idempotent — two loads of the same baseline
specification through the same compiled baseline schema that both succeed
yield identical cleaned baselines, equal value-for-value and
label-for-label (the cleaned structures are equal outright). -/
theorem baseline_load_deterministic (ps : ParamSchema)
    (input : List (String × Value)) (c1 c2 : Cleaned)
    (h1 : ps.load input = .ok c1) (h2 : ps.load input = .ok c2) :
    c1 = c2 := by
  rw [h1] at h2
  exact Except.ok.inj h2

/-- C9 witness: loading `exSpec` through `exPS` twice yields the same
cleaned baseline both times. -/
theorem baseline_load_deterministic_w : exCleaned = exCleaned :=
  baseline_load_deterministic exPS exBuilder.base_spec exCleaned exCleaned
    rfl rfl

/-! ### Claim C10 -/

/-- C10: `load_params` dispatches on the runtime shape of its argument — a
string naming an existing file has the file's content decoded and
validated, any other string is itself decoded and validated, a dict is
validated directly, and anything else raises `ValueError` for every
builder, in particular without consulting the validator schema. -/
theorem load_params_dispatch (b : SchemaBuilder) (fs : List (String × String))
    (parse : String → Option (List (String × Value)))
    (s content : String) (d : List (String × Value)) :
    (dictLookup fs s = some content → parse content = some d →
      b.load_params fs parse (ParamsOrPath.str s) = runValidator b d) ∧
    (dictLookup fs s = none → parse s = some d →
      b.load_params fs parse (ParamsOrPath.str s) = runValidator b d) ∧
    b.load_params fs parse (ParamsOrPath.dict d) = runValidator b d ∧
    b.load_params fs parse ParamsOrPath.other = .error LoadError.valueError := by
  refine ⟨fun h1 h2 => ?_, fun h1 h2 => ?_, rfl, rfl⟩ <;>
    simp [SchemaBuilder.load_params, h1, h2]

/-- C10 witness: the four dispatch branches at concrete inputs — the
existing path `params.json`, the non-path JSON string, the dict, and a
non-string non-dict argument. -/
theorem load_params_dispatch_w :
    SchemaBuilder.load_params exBuilt wFs wParse (ParamsOrPath.str "params.json")
      = runValidator exBuilt [] ∧
    SchemaBuilder.load_params exBuilt wFs wParse (ParamsOrPath.str "\x7b\x7d")
      = runValidator exBuilt [] ∧
    SchemaBuilder.load_params exBuilt wFs wParse (ParamsOrPath.dict [])
      = runValidator exBuilt [] ∧
    SchemaBuilder.load_params exBuilt wFs wParse ParamsOrPath.other
      = .error LoadError.valueError :=
  ⟨(load_params_dispatch exBuilt wFs wParse "params.json" "\x7b\x7d" []).1 rfl rfl,
   (load_params_dispatch exBuilt wFs wParse "\x7b\x7d" "\x7b\x7d" []).2.1 rfl rfl,
   (load_params_dispatch exBuilt wFs wParse "\x7b\x7d" "\x7b\x7d" []).2.2.1,
   (load_params_dispatch exBuilt wFs wParse "\x7b\x7d" "\x7b\x7d" []).2.2.2⟩

end ParamTools
